import Mathlib

/-!
Verification of pw_snapcast_link.py (rhasselbaum/snapcast-tools).

The script links/unlinks the default Pipewire audio output device's monitor
channels to the Snapcast sink. We embed its three functions shallowly:

* pw-link invocations are modelled as values of type Request, and a server
  is modelled as a state-transition function of type σ → Request → σ × Response,
  mirroring subprocess.run returning a returncode and captured stderr;
* update_links becomes a fold over the channel list ["FL", "FR"] that issues
  one Request per channel, classifies per-channel failures exactly as the
  Python does (string comparison against the two benign pw-link messages),
  and raises CalledProcessError (here: Except.error) otherwise;
* find_default_audio_sink becomes a total function on a structured dump;
* _main's control flow becomes mainModel, mapping each phase's outcome to
  the ordered list of calls performed and the process's exit status.

An idealised Pipewire graph (a finite edge set) gives pwStep, the concrete
behaviour of pw-link documented in the spec's external-interface section;
pwStepFaulty injects arbitrary failures for the fault-path claims.
-/

namespace PwSnapcastLink

/-- Constant SNAPCAST_SINK_NODE from the script. -/
def SNAPCAST_SINK_NODE : String := "Snapcast"

/-- One pw-link invocation: whether the -d flag is present, and the two
port names passed as arguments. -/
structure Request where
  disconnect : Bool
  src : String
  dst : String
deriving DecidableEq, Repr

/-- Outcome of one subprocess.run: return code and captured stderr text. -/
structure Response where
  returncode : Int
  stderr : String
deriving DecidableEq, Repr

/-- subprocess.CalledProcessError as raised by check_returncode, carrying
the return code and the stderr of the failed command. -/
inductive LinkError where
  | calledProcessError (returncode : Int) (stderr : String)
deriving DecidableEq, Repr

/-- Exact stderr produced by pw-link when the edge already exists. -/
def linkExistsMsg : String := "failed to link ports: File exists\n"

/-- Exact stderr produced by pw-link -d when the edge does not exist. -/
def unlinkMissingMsg : String := "failed to unlink ports: No such file or directory\n"

/-- The f-string building the source port name in update_links. -/
def monitorPort (dev channel : String) : String := dev ++ ":monitor_" ++ channel

/-- The f-string building the target port name in update_links. -/
def playbackPort (dev channel : String) : String := dev ++ ":playback_" ++ channel

/-- One iteration of the channel loop in update_links: build the two port
names, run the link command, and classify the outcome exactly as the
Python does (benign only on the direction-matching exact stderr). Returns
the new server state, the issued request, and ok or the raised error. -/
def processChannel {σ : Type} (step : σ → Request → σ × Response)
    (audio_sink_node snapcast_sink_node : String) (disconnect : Bool)
    (channel : String) (s : σ) : σ × Request × Except LinkError Unit :=
  let src_channel := monitorPort audio_sink_node channel
  let target_channel := playbackPort snapcast_sink_node channel
  let req : Request := ⟨disconnect, src_channel, target_channel⟩
  let out := step s req
  if out.2.returncode ≠ 0 then
    if !disconnect && out.2.stderr == linkExistsMsg then
      (out.1, req, Except.ok ())
    else if disconnect && out.2.stderr == unlinkMissingMsg then
      (out.1, req, Except.ok ())
    else
      (out.1, req, Except.error (.calledProcessError out.2.returncode out.2.stderr))
  else
    (out.1, req, Except.ok ())

/-- The channel loop of update_links over a list of channels: issues one
request per channel in order, stopping at the first fatal error, and
records the requests actually issued. -/
def updateLinksAux {σ : Type} (step : σ → Request → σ × Response)
    (audio_sink_node snapcast_sink_node : String) (disconnect : Bool) :
    List String → σ → σ × List Request × Except LinkError Unit
  | [], s => (s, [], Except.ok ())
  | ch :: rest, s =>
    let done := processChannel step audio_sink_node snapcast_sink_node disconnect ch s
    match done.2.2 with
    | Except.error e => (done.1, [done.2.1], Except.error e)
    | Except.ok _ =>
      let next := updateLinksAux step audio_sink_node snapcast_sink_node disconnect rest done.1
      (next.1, done.2.1 :: next.2.1, next.2.2)

/-- update_links from the script: the channel loop over ["FL", "FR"],
parameterised by the server model the pw-link subprocess talks to. -/
def update_links {σ : Type} (step : σ → Request → σ × Response)
    (audio_sink_node snapcast_sink_node : String) (disconnect : Bool) (s : σ) :
    σ × List Request × Except LinkError Unit :=
  updateLinksAux step audio_sink_node snapcast_sink_node disconnect ["FL", "FR"] s

/-- The Pipewire routing graph as pw-link sees it: the set of
(output port, input port) edges. -/
abbrev EdgeSet := Finset (String × String)

/-- The documented behaviour of the external pw-link command: create or
remove the named edge, succeeding with exit status 0, except that creating
an existing edge fails with the "File exists" message and removing a
missing edge fails with the "No such file or directory" message. -/
def pwStep (s : EdgeSet) (r : Request) : EdgeSet × Response :=
  let e := (r.src, r.dst)
  if r.disconnect then
    if e ∈ s then (s.erase e, ⟨0, ""⟩)
    else (s, ⟨1, unlinkMissingMsg⟩)
  else
    if e ∈ s then (s, ⟨1, linkExistsMsg⟩)
    else (insert e s, ⟨0, ""⟩)

/-- pw-link with injected faults: where the fault oracle returns a message,
the command fails with that stderr and leaves the graph unchanged;
elsewhere it behaves like pwStep. -/
def pwStepFaulty (fault : Request → Option String) (s : EdgeSet) (r : Request) :
    EdgeSet × Response :=
  match fault r with
  | some err => (s, ⟨1, err⟩)
  | none => pwStep s r

/-- Error kinds raised by find_default_audio_sink: LookupError raised by
the function body, versus the distinct exception kinds escaping the query
itself (CalledProcessError from pw-dump, JSONDecodeError from json.loads). -/
inductive FindError where
  | lookupError (msg : String)
  | queryError (msg : String)
deriving DecidableEq, Repr

/-- One metadata entry of a Pipewire metadata object: its key and the
name field of its value. -/
structure MetadataEntry where
  key : String
  valueName : String
deriving DecidableEq, Repr

/-- One object of a well-formed pw-dump: its type field, the metadata.name
property, and its metadata entries. -/
structure PwObject where
  type : String
  metadataName : String
  metadata : List MetadataEntry
deriving DecidableEq, Repr, Inhabited

/-- The first filter of find_default_audio_sink: objects whose type is the
metadata interface and whose metadata.name property equals "default". -/
def pipewireDefaults (dump : List PwObject) : List PwObject :=
  dump.filter (fun d =>
    d.type == "PipeWire:Interface:Metadata" && d.metadataName == "default")

/-- The second filter: the value names of entries keyed default.audio.sink
inside a metadata object. -/
def defaultSinkNames (d : PwObject) : List String :=
  (d.metadata.filter (fun e => e.key == "default.audio.sink")).map
    (fun e => e.valueName)

/-- find_default_audio_sink on an already-parsed dump: both filters with
their exactly-one length checks (len(..) != 1 raises LookupError), then
the indexing at position 0 of the singleton lists. -/
def find_default_audio_sink (dump : List PwObject) : Except FindError String :=
  let pipewire_defaults_dicts := pipewireDefaults dump
  if pipewire_defaults_dicts.length ≠ 1 then
    Except.error (.lookupError "Failed to find Pipewire defaults metadata.")
  else
    let default_sink_names := defaultSinkNames pipewire_defaults_dicts.headI
    if default_sink_names.length ≠ 1 then
      Except.error (.lookupError "Failed to find default audio sink.")
    else
      Except.ok default_sink_names.headI

/-- find_default_audio_sink including the pw-dump query: a failing query
(non-zero exit of pw-dump, or malformed JSON) escapes as its own error
kind before the lookup logic runs. -/
def findDefaultAudioSinkRun (query : Except String (List PwObject)) :
    Except FindError String :=
  match query with
  | Except.error m => Except.error (.queryError m)
  | Except.ok dump => find_default_audio_sink dump

/-- Observable calls made by _main, in program order. -/
inductive Call where
  | query
  | updateLinksCall (audio_sink_node snapcast_sink_node : String) (disconnect : Bool)
deriving DecidableEq, Repr

/-- How the wait loop in _main ends: the signal handler's
ShutdownException (caught by the except clause), or any other exception
escaping the loop (reaches the finally clause and then propagates). -/
inductive WaitOutcome where
  | shutdownSignal
  | unexpectedError
deriving DecidableEq, Repr

/-- Control-flow model of _main: given the outcome of each phase, the list
of calls performed in order and whether the process exits cleanly (true)
or with an error (false). The connect call sits before the try/finally, so
its exception propagates without reaching the finally clause; once the try
block is entered, the finally clause always runs the disconnect call. -/
def mainModel (queryResult : Except FindError String)
    (connectResult : Except LinkError Unit)
    (waitOutcome : WaitOutcome)
    (disconnectResult : Except LinkError Unit) : List Call × Bool :=
  match queryResult with
  | Except.error _ => ([Call.query], false)
  | Except.ok name =>
    match connectResult with
    | Except.error _ =>
      ([Call.query, Call.updateLinksCall name SNAPCAST_SINK_NODE false], false)
    | Except.ok () =>
      let calls := [Call.query,
        Call.updateLinksCall name SNAPCAST_SINK_NODE false,
        Call.updateLinksCall name SNAPCAST_SINK_NODE true]
      match waitOutcome, disconnectResult with
      | WaitOutcome.shutdownSignal, Except.ok () => (calls, true)
      | _, _ => (calls, false)

/-! ### Helper lemmas about the embedding -/

/-- The request issued for a channel is determined by the arguments alone,
whatever the server answers. -/
lemma processChannel_req {σ : Type} (step : σ → Request → σ × Response)
    (a t ch : String) (d : Bool) (s : σ) :
    (processChannel step a t d ch s).2.1 =
      ⟨d, monitorPort a ch, playbackPort t ch⟩ := by
  unfold processChannel
  dsimp only
  split <;> [skip; rfl]
  split <;> [rfl; skip]
  split <;> rfl

/-- Against the real pw-link behaviour, a connect step always succeeds
(benignly when the edge exists) and the resulting graph is the edge set
with the channel's edge inserted. -/
lemma processChannel_pwStep_connect (a t ch : String) (s : EdgeSet) :
    processChannel pwStep a t false ch s =
      (insert (monitorPort a ch, playbackPort t ch) s,
       ⟨false, monitorPort a ch, playbackPort t ch⟩, Except.ok ()) := by
  unfold processChannel pwStep
  by_cases hm : (monitorPort a ch, playbackPort t ch) ∈ s
  · simp [hm, linkExistsMsg, Finset.insert_eq_self.mpr hm]
  · simp [hm]

/-- Against the real pw-link behaviour, a disconnect step always succeeds
(benignly when the edge is absent) and the resulting graph is the edge set
with the channel's edge erased. -/
lemma processChannel_pwStep_disconnect (a t ch : String) (s : EdgeSet) :
    processChannel pwStep a t true ch s =
      (Finset.erase s (monitorPort a ch, playbackPort t ch),
       ⟨true, monitorPort a ch, playbackPort t ch⟩, Except.ok ()) := by
  unfold processChannel pwStep
  by_cases hm : (monitorPort a ch, playbackPort t ch) ∈ s
  · simp [hm]
  · simp [hm, unlinkMissingMsg, Finset.erase_eq_self.mpr hm]

/-- Closed form of a connect call against the real pw-link behaviour:
both channel edges are inserted, the two requests are issued in FL, FR
order, and the call raises nothing. -/
lemma update_links_pwStep_connect (a t : String) (s : EdgeSet) :
    update_links pwStep a t false s =
      (insert (monitorPort a "FR", playbackPort t "FR")
         (insert (monitorPort a "FL", playbackPort t "FL") s),
       [⟨false, monitorPort a "FL", playbackPort t "FL"⟩,
        ⟨false, monitorPort a "FR", playbackPort t "FR"⟩], Except.ok ()) := by
  unfold update_links updateLinksAux
  rw [processChannel_pwStep_connect]
  dsimp only
  unfold updateLinksAux
  rw [processChannel_pwStep_connect]
  rfl

/-- Closed form of a disconnect call against the real pw-link behaviour:
both channel edges are erased, the two requests are issued in FL, FR
order, and the call raises nothing. -/
lemma update_links_pwStep_disconnect (a t : String) (s : EdgeSet) :
    update_links pwStep a t true s =
      (Finset.erase (Finset.erase s (monitorPort a "FL", playbackPort t "FL"))
         (monitorPort a "FR", playbackPort t "FR"),
       [⟨true, monitorPort a "FL", playbackPort t "FL"⟩,
        ⟨true, monitorPort a "FR", playbackPort t "FR"⟩], Except.ok ()) := by
  unfold update_links updateLinksAux
  rw [processChannel_pwStep_disconnect]
  dsimp only
  unfold updateLinksAux
  rw [processChannel_pwStep_disconnect]
  rfl

/-- Characterisation of a fatal channel step: whenever the command exits
non-zero and its stderr is not the direction's benign message, the loop
body raises CalledProcessError with that return code and stderr, and the
server state is whatever the failed command left. -/
lemma processChannel_fatal {σ : Type} (step : σ → Request → σ × Response)
    (a t ch : String) (d : Bool) (s : σ)
    (hrc : (step s ⟨d, monitorPort a ch, playbackPort t ch⟩).2.returncode ≠ 0)
    (hmsg : (step s ⟨d, monitorPort a ch, playbackPort t ch⟩).2.stderr ≠
      (if d then unlinkMissingMsg else linkExistsMsg)) :
    processChannel step a t d ch s =
      ((step s ⟨d, monitorPort a ch, playbackPort t ch⟩).1,
       ⟨d, monitorPort a ch, playbackPort t ch⟩,
       Except.error (.calledProcessError
         (step s ⟨d, monitorPort a ch, playbackPort t ch⟩).2.returncode
         (step s ⟨d, monitorPort a ch, playbackPort t ch⟩).2.stderr)) := by
  unfold processChannel
  cases d <;> simp_all

/-! ### Claim theorems -/

/-- C2: update_links is idempotent in the error sense. Against the
pw-link behaviour, for every starting graph, every (source, target) pair
and every value of the disconnect flag, running the operation a second
time with identical arguments raises no fatal error: the already-linked /
already-unlinked responses are classified as benign for both channels, so
the second call succeeds and leaves the graph of the first call
unchanged. -/
theorem updateLinksIdempotent (s : EdgeSet) (source target : String) (d : Bool) :
    (update_links pwStep source target d
        ((update_links pwStep source target d s).1)).2.2 = Except.ok () ∧
    (update_links pwStep source target d
        ((update_links pwStep source target d s).1)).1 =
      (update_links pwStep source target d s).1 := by
  cases d
  · simp only [update_links_pwStep_connect]
    refine ⟨trivial, ?_⟩
    ext x
    simp only [Finset.mem_insert]
    tauto
  · simp only [update_links_pwStep_disconnect]
    refine ⟨trivial, ?_⟩
    ext x
    simp only [Finset.mem_erase]
    tauto

/-- C3: a call of update_links that completes without fatal error issues
exactly two edge requests, first for channel FL and then for channel FR,
naming monitor ports of the source and playback ports of the target, and
the disconnect flag of the call is the only difference between create and
remove requests. Stated for an arbitrary server model. -/
theorem updateLinksTwoRequests {σ : Type} (step : σ → Request → σ × Response)
    (s : σ) (source target : String) (d : Bool)
    (h : (update_links step source target d s).2.2 = Except.ok ()) :
    (update_links step source target d s).2.1 =
      [⟨d, monitorPort source "FL", playbackPort target "FL"⟩,
       ⟨d, monitorPort source "FR", playbackPort target "FR"⟩] := by
  unfold update_links at h ⊢
  simp only [updateLinksAux] at h ⊢
  cases hFL : (processChannel step source target d "FL" s).2.2 with
  | error e => simp [hFL] at h
  | ok u =>
    cases u
    simp only [hFL] at h ⊢
    cases hFR : (processChannel step source target d "FR"
        (processChannel step source target d "FL" s).1).2.2 with
    | error e => simp [hFR] at h
    | ok v =>
      cases v
      simp [hFR, processChannel_req]

/-- C4: a per-channel link command exiting non-zero with an error text
other than the direction's benign message fails the whole operation: the
CalledProcessError propagates out of update_links and the FR channel is
never processed when FL failed (the request list stops at FL). Stated for
an arbitrary server model. -/
theorem updateLinksFatalAborts {σ : Type} (step : σ → Request → σ × Response)
    (s : σ) (source target : String) (d : Bool)
    (hrc : (step s ⟨d, monitorPort source "FL", playbackPort target "FL"⟩).2.returncode ≠ 0)
    (hmsg : (step s ⟨d, monitorPort source "FL", playbackPort target "FL"⟩).2.stderr ≠
      (if d then unlinkMissingMsg else linkExistsMsg)) :
    update_links step source target d s =
      ((step s ⟨d, monitorPort source "FL", playbackPort target "FL"⟩).1,
       [⟨d, monitorPort source "FL", playbackPort target "FL"⟩],
       Except.error (.calledProcessError
         (step s ⟨d, monitorPort source "FL", playbackPort target "FL"⟩).2.returncode
         (step s ⟨d, monitorPort source "FL", playbackPort target "FL"⟩).2.stderr)) := by
  unfold update_links
  simp only [updateLinksAux]
  rw [processChannel_fatal step source target "FL" d s hrc hmsg]

/-- C4 witness: a server that always exits 1 with stderr "boom" makes a
connect call fail hard after the single FL request. -/
theorem updateLinksFatalAborts_witness :
    ((fun (u : Unit) (_ : Request) => (u, (⟨1, "boom"⟩ : Response))) ()
        ⟨false, monitorPort "dev" "FL", playbackPort "Snapcast" "FL"⟩).2.returncode ≠ 0 ∧
    ((fun (u : Unit) (_ : Request) => (u, (⟨1, "boom"⟩ : Response))) ()
        ⟨false, monitorPort "dev" "FL", playbackPort "Snapcast" "FL"⟩).2.stderr ≠
      (if false then unlinkMissingMsg else linkExistsMsg) ∧
    update_links (fun (u : Unit) (_ : Request) => (u, (⟨1, "boom"⟩ : Response)))
        "dev" "Snapcast" false () =
      ((), [⟨false, monitorPort "dev" "FL", playbackPort "Snapcast" "FL"⟩],
       Except.error (.calledProcessError 1 "boom")) :=
  ⟨by decide, by decide,
   updateLinksFatalAborts (fun (u : Unit) (_ : Request) => (u, (⟨1, "boom"⟩ : Response)))
     () "dev" "Snapcast" false (by decide) (by decide)⟩

/-- C10: with a non-zero exit status, the loop body treats the failure as
benign exactly when the entire stderr equals, character for character
including the trailing newline, the one recognized message for the
request's direction; any other stderr (including the opposite direction's
message) raises CalledProcessError carrying that return code and stderr. -/
theorem benignNeedsExactMessage {σ : Type} (step : σ → Request → σ × Response)
    (s : σ) (a t ch : String) (d : Bool)
    (hrc : (step s ⟨d, monitorPort a ch, playbackPort t ch⟩).2.returncode ≠ 0) :
    ((processChannel step a t d ch s).2.2 = Except.ok () ↔
      ((d = false ∧ (step s ⟨d, monitorPort a ch, playbackPort t ch⟩).2.stderr
          = linkExistsMsg) ∨
       (d = true ∧ (step s ⟨d, monitorPort a ch, playbackPort t ch⟩).2.stderr
          = unlinkMissingMsg))) ∧
    ((processChannel step a t d ch s).2.2 = Except.ok () ∨
     (processChannel step a t d ch s).2.2 = Except.error (.calledProcessError
       (step s ⟨d, monitorPort a ch, playbackPort t ch⟩).2.returncode
       (step s ⟨d, monitorPort a ch, playbackPort t ch⟩).2.stderr)) := by
  unfold processChannel
  cases d <;>
    by_cases hm : (step s ⟨false, monitorPort a ch, playbackPort t ch⟩).2.stderr
        = linkExistsMsg <;>
    by_cases hm2 : (step s ⟨true, monitorPort a ch, playbackPort t ch⟩).2.stderr
        = unlinkMissingMsg <;>
    simp_all

/-- C10 witness: the already-linked message without its trailing newline
is fatal on a connect request. -/
theorem benignNeedsExactMessage_witness :
    ((fun (u : Unit) (_ : Request) =>
        (u, (⟨1, "failed to link ports: File exists"⟩ : Response))) ()
      ⟨false, monitorPort "dev" "FL", playbackPort "Snapcast" "FL"⟩).2.returncode ≠ 0 ∧
    ((processChannel (fun (u : Unit) (_ : Request) =>
          (u, (⟨1, "failed to link ports: File exists"⟩ : Response)))
        "dev" "Snapcast" false "FL" ()).2.2 = Except.ok () ↔
      ((false = false ∧ "failed to link ports: File exists" = linkExistsMsg) ∨
       (false = true ∧ "failed to link ports: File exists" = unlinkMissingMsg))) :=
  ⟨by decide,
   ((benignNeedsExactMessage (fun (u : Unit) (_ : Request) =>
       (u, (⟨1, "failed to link ports: File exists"⟩ : Response)))
     () "dev" "Snapcast" "FL" false (by decide)).1)⟩

/-- C5: on every well-formed dump in which the number of metadata objects
named "default" is zero or at least two, or in which the unique such
object carries zero or at least two default.audio.sink entries,
find_default_audio_sink returns the LookupError kind (and in particular
neither crashes nor returns a device name). -/
theorem findDefaultLookupAmbiguity (dump : List PwObject)
    (h : (pipewireDefaults dump).length ≠ 1 ∨
      ∃ d, pipewireDefaults dump = [d] ∧ (defaultSinkNames d).length ≠ 1) :
    ∃ msg, find_default_audio_sink dump =
      Except.error (FindError.lookupError msg) := by
  unfold find_default_audio_sink
  rcases h with h1 | ⟨d, hd, h2⟩
  · refine ⟨"Failed to find Pipewire defaults metadata.", ?_⟩
    simp [h1]
  · have hlen : (pipewireDefaults dump).length = 1 := by rw [hd]; rfl
    have hhead : (pipewireDefaults dump).headI = d := by rw [hd]; rfl
    refine ⟨"Failed to find default audio sink.", ?_⟩
    simp [hlen, hhead, h2]

/-- C5 witness: the empty dump has zero "default" metadata objects and
fails with LookupError. -/
theorem findDefaultLookupAmbiguity_witness :
    (pipewireDefaults []).length ≠ 1 ∧
    ∃ msg, find_default_audio_sink [] =
      Except.error (FindError.lookupError msg) :=
  ⟨by decide, findDefaultLookupAmbiguity [] (Or.inl (by decide))⟩

/-- C6: every failure of the pw-dump query itself (non-zero exit or
malformed JSON, both raised before the lookup logic runs) surfaces as the
query-failure error kind, which is distinct from the lookup-failure kind
for every pair of messages. -/
theorem findDefaultQueryFailureDistinct (msg : String) :
    findDefaultAudioSinkRun (Except.error msg) =
      Except.error (FindError.queryError msg) ∧
    ∀ m1 m2 : String, FindError.queryError m1 ≠ FindError.lookupError m2 := by
  refine ⟨rfl, ?_⟩
  intro m1 m2 h
  cases h

/-- C1 counterexample: an execution whose initial link attempt (the
update_links call with disconnect = False) raises a fatal LinkFailure
performs the connect call but exits without ever calling update_links
with disconnect = True: the connect call sits before the try/finally in
_main, so the teardown path is skipped. -/
theorem connectFailureSkipsUnlink_cex :
    Call.updateLinksCall "dev" SNAPCAST_SINK_NODE false ∈
      (mainModel (Except.ok "dev")
        (Except.error (.calledProcessError 1 "boom"))
        WaitOutcome.shutdownSignal (Except.ok ())).1 ∧
    Call.updateLinksCall "dev" SNAPCAST_SINK_NODE true ∉
      (mainModel (Except.ok "dev")
        (Except.error (.calledProcessError 1 "boom"))
        WaitOutcome.shutdownSignal (Except.ok ())).1 ∧
    (mainModel (Except.ok "dev")
        (Except.error (.calledProcessError 1 "boom"))
        WaitOutcome.shutdownSignal (Except.ok ())).2 = false := by
  refine ⟨?_, ?_, rfl⟩ <;> simp [mainModel, SNAPCAST_SINK_NODE]

/-- C1 amended: if the initial link attempt raises a fatal LinkFailure,
the process exits non-zero without running the unlink step (the connect
call precedes the try/finally); the unlink step is guaranteed on every
exit path only once the connect call has returned, in particular even
when the wait phase raised an unexpected error. -/
theorem teardownScopeAmended (name : String) (e : LinkError)
    (wo : WaitOutcome) (dr : Except LinkError Unit) :
    (mainModel (Except.ok name) (Except.error e) wo dr =
      ([Call.query, Call.updateLinksCall name SNAPCAST_SINK_NODE false],
       false)) ∧
    (∀ (wo2 : WaitOutcome) (dr2 : Except LinkError Unit),
      Call.updateLinksCall name SNAPCAST_SINK_NODE true ∈
        (mainModel (Except.ok name) (Except.ok ()) wo2 dr2).1) := by
  refine ⟨rfl, ?_⟩
  intro wo2 dr2
  rcases dr2 with e2 | u
  · cases wo2 <;> simp [mainModel]
  · cases u
    cases wo2 <;> simp [mainModel]

/-- C9: when the termination signal ends the wait phase after a successful
connect, _main performs exactly the trace query, connect, disconnect and
exits cleanly: the disconnect runs exactly once, with disconnect = True
and the same (source, target) pair resolved at startup, and the source
device name is not re-queried at shutdown (one query call in the whole
trace). -/
theorem shutdownRunsTeardownOnce (name : String) :
    (mainModel (Except.ok name) (Except.ok ())
        WaitOutcome.shutdownSignal (Except.ok ())) =
      ([Call.query,
        Call.updateLinksCall name SNAPCAST_SINK_NODE false,
        Call.updateLinksCall name SNAPCAST_SINK_NODE true], true) ∧
    (mainModel (Except.ok name) (Except.ok ())
        WaitOutcome.shutdownSignal (Except.ok ())).1.count
      (Call.updateLinksCall name SNAPCAST_SINK_NODE true) = 1 ∧
    (mainModel (Except.ok name) (Except.ok ())
        WaitOutcome.shutdownSignal (Except.ok ())).1.count Call.query = 1 := by
  refine ⟨rfl, ?_, ?_⟩ <;>
    simp [mainModel, List.count_cons, List.count_nil, beq_iff_eq]

/-- C3 witness: against a server that always answers exit status 0, a
connect call for ("dev", "Snapcast") issues exactly the FL request then
the FR request. -/
theorem updateLinksTwoRequests_witness :
    (update_links (fun (u : Unit) (_ : Request) => (u, (⟨0, ""⟩ : Response)))
        "dev" "Snapcast" false ()).2.2 = Except.ok () ∧
    (update_links (fun (u : Unit) (_ : Request) => (u, (⟨0, ""⟩ : Response)))
        "dev" "Snapcast" false ()).2.1 =
      [⟨false, monitorPort "dev" "FL", playbackPort "Snapcast" "FL"⟩,
       ⟨false, monitorPort "dev" "FR", playbackPort "Snapcast" "FR"⟩] :=
  ⟨by rfl,
   updateLinksTwoRequests (fun (u : Unit) (_ : Request) => (u, (⟨0, ""⟩ : Response)))
     () "dev" "Snapcast" false (by rfl)⟩

/-- C7: connect followed by disconnect with the same (source, target)
pair, against the pw-link behaviour on an edge-tracking graph, leaves the
graph free of both channel edges, for every starting graph in which both
calls complete without fatal error. -/
theorem connectDisconnectRoundtrip (s : EdgeSet) (source target : String)
    (h1 : (update_links pwStep source target false s).2.2 = Except.ok ())
    (h2 : (update_links pwStep source target true
        ((update_links pwStep source target false s).1)).2.2 = Except.ok ()) :
    (monitorPort source "FL", playbackPort target "FL") ∉
      (update_links pwStep source target true
        ((update_links pwStep source target false s).1)).1 ∧
    (monitorPort source "FR", playbackPort target "FR") ∉
      (update_links pwStep source target true
        ((update_links pwStep source target false s).1)).1 := by
  simp only [update_links_pwStep_connect, update_links_pwStep_disconnect]
  constructor <;> simp [Finset.mem_erase]

/-- C7 witness: the round trip from the empty graph for ("dev",
"Snapcast") completes without fatal error and ends with neither channel
edge present. -/
theorem connectDisconnectRoundtrip_witness :
    (update_links pwStep "dev" "Snapcast" false ∅).2.2 = Except.ok () ∧
    (update_links pwStep "dev" "Snapcast" true
        ((update_links pwStep "dev" "Snapcast" false ∅).1)).2.2 = Except.ok () ∧
    ((monitorPort "dev" "FL", playbackPort "Snapcast" "FL") ∉
      (update_links pwStep "dev" "Snapcast" true
        ((update_links pwStep "dev" "Snapcast" false ∅).1)).1 ∧
     (monitorPort "dev" "FR", playbackPort "Snapcast" "FR") ∉
      (update_links pwStep "dev" "Snapcast" true
        ((update_links pwStep "dev" "Snapcast" false ∅).1)).1) :=
  ⟨by simp [update_links_pwStep_connect],
   by simp [update_links_pwStep_connect, update_links_pwStep_disconnect],
   connectDisconnectRoundtrip ∅ "dev" "Snapcast"
     (by simp [update_links_pwStep_connect])
     (by simp [update_links_pwStep_connect, update_links_pwStep_disconnect])⟩

/-- Frame property of one faulted channel step: an edge different from the
channel's own edge is in the resulting graph exactly when it was in the
starting graph, whatever the fault oracle does. -/
lemma processChannel_faulty_frame (fault : Request → Option String)
    (a t ch : String) (d : Bool) (s : EdgeSet) (x : String × String)
    (hx : x ≠ (monitorPort a ch, playbackPort t ch)) :
    (x ∈ (processChannel (pwStepFaulty fault) a t d ch s).1 ↔ x ∈ s) := by
  unfold processChannel pwStepFaulty
  cases hf : fault ⟨d, monitorPort a ch, playbackPort t ch⟩
  · simp only [hf]
    unfold pwStep
    cases d <;>
      by_cases hm : (monitorPort a ch, playbackPort t ch) ∈ s <;>
      simp [hm, hx, Finset.mem_insert, Finset.mem_erase]
  · simp only [hf]
    split_ifs <;> rfl

/-- Frame property of a whole call against the faulted pw-link model: an
edge different from the two channel edges named by the call is untouched,
whether the call succeeds, fails on FL, or fails on FR. -/
lemma update_links_faulty_frame (fault : Request → Option String)
    (a t : String) (d : Bool) (s : EdgeSet) (x : String × String)
    (h1 : x ≠ (monitorPort a "FL", playbackPort t "FL"))
    (h2 : x ≠ (monitorPort a "FR", playbackPort t "FR")) :
    (x ∈ (update_links (pwStepFaulty fault) a t d s).1 ↔ x ∈ s) := by
  unfold update_links
  simp only [updateLinksAux]
  cases hFL : (processChannel (pwStepFaulty fault) a t d "FL" s).2.2 with
  | error e =>
    simp only [hFL]
    exact processChannel_faulty_frame fault a t "FL" d s x h1
  | ok u =>
    cases u
    simp only [hFL]
    cases hFR : (processChannel (pwStepFaulty fault) a t d "FR"
        (processChannel (pwStepFaulty fault) a t d "FL" s).1).2.2 with
    | error e =>
      simp only [hFR]
      rw [processChannel_faulty_frame fault a t "FR" d _ x h2]
      exact processChannel_faulty_frame fault a t "FL" d s x h1
    | ok v =>
      cases v
      simp only [hFR]
      rw [processChannel_faulty_frame fault a t "FR" d _ x h2]
      exact processChannel_faulty_frame fault a t "FL" d s x h1

/-- C8: update_links neither retries nor rolls back. When, on a connect
call, the FL request succeeds (no fault, edge created) and the FR request
fails fatally, the error propagates, the FL edge remains in the graph, and
no remove request is ever issued by the call; moreover any call, for every
fault oracle and flag, leaves every edge other than its two named channel
edges unchanged. -/
theorem updateLinksNoRollback (s : EdgeSet) (source target : String)
    (fault : Request → Option String) (err : String)
    (hFL : fault ⟨false, monitorPort source "FL", playbackPort target "FL"⟩ = none)
    (hFR : fault ⟨false, monitorPort source "FR", playbackPort target "FR"⟩ = some err)
    (herr : err ≠ linkExistsMsg)
    (hnew : (monitorPort source "FL", playbackPort target "FL") ∉ s) :
    (update_links (pwStepFaulty fault) source target false s).2.2 =
      Except.error (.calledProcessError 1 err) ∧
    (monitorPort source "FL", playbackPort target "FL") ∈
      (update_links (pwStepFaulty fault) source target false s).1 ∧
    (∀ r ∈ (update_links (pwStepFaulty fault) source target false s).2.1,
      r.disconnect = false) ∧
    (∀ (d : Bool) (g : Request → Option String) (t0 : EdgeSet)
        (x : String × String),
      x ≠ (monitorPort source "FL", playbackPort target "FL") →
      x ≠ (monitorPort source "FR", playbackPort target "FR") →
      (x ∈ (update_links (pwStepFaulty g) source target d t0).1 ↔ x ∈ t0)) := by
  have hpcFL : processChannel (pwStepFaulty fault) source target false "FL" s =
      (insert (monitorPort source "FL", playbackPort target "FL") s,
       ⟨false, monitorPort source "FL", playbackPort target "FL"⟩,
       Except.ok ()) := by
    unfold processChannel pwStepFaulty
    simp only [hFL]
    unfold pwStep
    simp [hnew]
  have hpcFR : processChannel (pwStepFaulty fault) source target false "FR"
      (insert (monitorPort source "FL", playbackPort target "FL") s) =
      (insert (monitorPort source "FL", playbackPort target "FL") s,
       ⟨false, monitorPort source "FR", playbackPort target "FR"⟩,
       Except.error (.calledProcessError 1 err)) := by
    unfold processChannel pwStepFaulty
    simp only [hFR]
    simp [herr]
  have hrun : update_links (pwStepFaulty fault) source target false s =
      (insert (monitorPort source "FL", playbackPort target "FL") s,
       [⟨false, monitorPort source "FL", playbackPort target "FL"⟩,
        ⟨false, monitorPort source "FR", playbackPort target "FR"⟩],
       Except.error (.calledProcessError 1 err)) := by
    unfold update_links
    simp only [updateLinksAux, hpcFL]
    simp only [hpcFR]
  refine ⟨by rw [hrun], ?_, ?_, ?_⟩
  · rw [hrun]
    exact Finset.mem_insert_self _ _
  · rw [hrun]
    intro r hr
    simp only [List.mem_cons, List.not_mem_nil, or_false] at hr
    rcases hr with rfl | rfl <;> rfl
  · intro d g t0 x hx1 hx2
    exact update_links_faulty_frame g source target d t0 x hx1 hx2

/-- Fault oracle for the C8 witness: only the FR connect request for
("dev", "Snapcast") fails, with stderr "boom". -/
def faultFRBoom : Request → Option String :=
  fun r =>
    if r = ⟨false, monitorPort "dev" "FR", playbackPort "Snapcast" "FR"⟩ then
      some "boom"
    else
      none

/-- C8 witness: from the empty graph, a connect call for ("dev",
"Snapcast") whose FR request fails with "boom" leaves the FL edge
connected. -/
theorem updateLinksNoRollback_witness :
    faultFRBoom ⟨false, monitorPort "dev" "FL", playbackPort "Snapcast" "FL"⟩
      = none ∧
    faultFRBoom ⟨false, monitorPort "dev" "FR", playbackPort "Snapcast" "FR"⟩
      = some "boom" ∧
    "boom" ≠ linkExistsMsg ∧
    (monitorPort "dev" "FL", playbackPort "Snapcast" "FL") ∉ (∅ : EdgeSet) ∧
    (monitorPort "dev" "FL", playbackPort "Snapcast" "FL") ∈
      (update_links (pwStepFaulty faultFRBoom) "dev" "Snapcast" false ∅).1 :=
  ⟨by decide, by decide, by decide, by simp,
   (updateLinksNoRollback ∅ "dev" "Snapcast" faultFRBoom "boom"
     (by decide) (by decide) (by decide) (by simp)).2.1⟩

end PwSnapcastLink
